import Mathlib

/-!
Shallow embedding of `storageExample.go` from the repository
Azure-Samples/storage-blob-go-getting-started.

The program is an effectful command-line workflow; we embed it as
trace-producing functions.  Every interaction with the world (the Azure
storage SDK, the local filesystem, the console, stdin) is recorded as an
`Event`, and the responses the world would give (SDK errors, `os.Stat`
outcomes, blob bodies) are supplied explicitly through environment
structures, one field per call site, mirroring the Go source line by
line.  Each Go function returning `error` becomes a Lean function
returning `List Event × Option String`: the events it performs, in
order, and its error result (`none` = nil error).  Bytes are `Nat`s,
with `% 256` written out where Go converts `int` to `byte`.
-/

/-- Status tag of a block in a block list, mirroring
`storage.BlockStatus` (`storage.BlockStatusUncommitted` etc.). -/
inductive BlockStatus where
  | committed
  | uncommitted
  | latest
deriving DecidableEq, Repr

/-- Entry of a `GetBlockList` response, mirroring the SDK's
`storage.BlockResponse` (only the `Name` field is read by the sample). -/
structure BlockResponse where
  Name : String
deriving DecidableEq, Repr

/-- Entry of a `PutBlockList` request, mirroring `storage.Block`. -/
structure Block where
  ID : String
  Status : BlockStatus
deriving DecidableEq, Repr

/-- Filter argument of `GetBlockList`, mirroring
`storage.BlockListType{All,Committed,Uncommitted}`. -/
inductive BlockListType where
  | all
  | committed
  | uncommitted
deriving DecidableEq, Repr

/-- Outcome of the `os.Stat` call in `downloadBlob`: success (`ok`),
a does-not-exist error, or any other error (e.g. permission denied). -/
inductive StatResult where
  | ok
  | errNotExist
  | errOther
deriving DecidableEq, Repr

/-- One observable action of the program.  Remote SDK calls, local file
operations, console prints and the stdin read each get a constructor;
`closeReader` and `readAll` carry the reader value returned by `Get`
(`none` models a nil reader). -/
inductive Event where
  | printMsg (msg : String)
  | createContainer (name : String)
  | putAppendBlob (blob : String)
  | appendBlock (blob : String) (data : List Nat)
  | createBlockBlob (blob : String)
  | putBlock (blob : String) (blockID : String) (data : List Nat)
  | getBlockList (blob : String) (ty : BlockListType)
  | putBlockList (blob : String) (blocks : List Block)
  | putPageBlob (blob : String) (contentLength : Int)
  | writeRange (blob : String) (endOffset : Nat) (data : List Nat)
  | getPageRanges (blob : String)
  | getBlob (blob : String)
  | statFile (path : String)
  | readAll (reader : Option Nat)
  | closeReader (reader : Option Nat)
  | writeFile (path : String) (data : List Nat)
  | listBlobs (container : String)
  | readLine
  | deleteContainer (name : String)
  | removeFile (path : String)
deriving DecidableEq, Repr

/-- Local file names, from the package-level `var` block of the source. -/
def appendBlobFile : String := "appendBlob.txt"

/-- Local file name for the block blob download. -/
def blockBlobFile : String := "blockBlob.txt"

/-- Local file name for the page blob download. -/
def pageBlobFile : String := "pageBlob.txt"

/-- The standard base64 alphabet used by Go's `encoding/base64`
`StdEncoding`. -/
def base64Alphabet : List Char :=
  "ABCDEFGHIJKLMNOPQRSTUVWXYZabcdefghijklmnopqrstuvwxyz0123456789+/".toList

/-- Character of the standard base64 alphabet at index `n`. -/
def b64Char (n : Nat) : Char := base64Alphabet.getD n '?'

/-- Standard base64 encoding with padding over a list of bytes,
mirroring `base64.StdEncoding.EncodeToString`. -/
def base64Encode : List Nat → List Char
  | [] => []
  | [b1] =>
      [b64Char (b1 / 4), b64Char (b1 % 4 * 16), '=', '=']
  | [b1, b2] =>
      [b64Char (b1 / 4), b64Char (b1 % 4 * 16 + b2 / 16),
       b64Char (b2 % 16 * 4), '=']
  | b1 :: b2 :: b3 :: rest =>
      b64Char (b1 / 4) :: b64Char (b1 % 4 * 16 + b2 / 16) ::
      b64Char (b2 % 16 * 4 + b3 / 64) :: b64Char (b3 % 64) ::
      base64Encode rest

/-- The block ID the sample stages, from line 134 of the source:
`base64.StdEncoding.EncodeToString([]byte("00000"))`. -/
def sampleBlockID : String :=
  String.mk (base64Encode ("00000".toList.map Char.toNat))

/-- The constant `ran := 'z' - '0'` from `randomData`. -/
def ran : Nat := 'z'.toNat - '0'.toNat

/-- Embedding of `randomData`.  Go draws `rand.Int()` (a non-negative
`int`) once per output byte; we model the generator as a stream
`rnd : Nat → Nat` whose `i`-th value is the `i`-th draw.  The Go body is
`char := rand.Int(); char %= int(ran); char += '0'; text[i] = byte(char)`;
the final `byte` conversion is the `% 256`. -/
def randomData (rnd : Nat → Nat) (strLen : Nat) : List Nat :=
  (List.range strLen).map (fun i => (rnd i % ran + '0'.toNat) % 256)

/-- World responses consumed by one call of `downloadBlob`:
the `os.Stat` outcome, the reader and error returned by `b.Get`, and the
outcomes of `ioutil.ReadAll` and `ioutil.WriteFile`. -/
structure DownloadEnv where
  statRes : StatResult
  getReader : Option Nat
  getErr : Option String
  readData : List Nat
  readErr : Option String
  writeErr : Option String

/-- Embedding of `downloadBlob` (lines 233-258).  It stats the local
path and refuses when the stat error is nil; otherwise it calls `Get`,
immediately defers `Close` on the returned reader (before checking
`Get`'s error, as in the source), reads the body and writes the file.
The deferred `Close` appears at the end of every trace that reaches the
`defer` statement. -/
def downloadBlob (env : DownloadEnv) (blobName fileName : String) :
    List Event × Option String :=
  let pr := Event.printMsg ("Download blob " ++ blobName ++ " into " ++ fileName)
  match env.statRes with
  | StatResult.ok =>
      ([pr, Event.statFile fileName],
       some ("file " ++ fileName ++ " already exists"))
  | _ =>
    let pre := [pr, Event.statFile fileName, Event.getBlob blobName]
    let closeEv := Event.closeReader env.getReader
    match env.getErr with
    | some e => (pre ++ [closeEv], some ("get blob failed: " ++ e))
    | none =>
      match env.readErr with
      | some e =>
          (pre ++ [Event.readAll env.getReader, closeEv],
           some ("read body failed: " ++ e))
      | none =>
        match env.writeErr with
        | some e =>
            (pre ++ [Event.readAll env.getReader,
                     Event.writeFile fileName env.readData, closeEv],
             some ("write file failed: " ++ e))
        | none =>
            (pre ++ [Event.readAll env.getReader,
                     Event.writeFile fileName env.readData, closeEv],
             none)

/-- Effect of one event on a local filesystem, a map from path to file
contents.  Only `writeFile` and `removeFile` touch the filesystem. -/
def applyEvent (fs : String → Option (List Nat)) : Event → String → Option (List Nat)
  | Event.writeFile p d => fun q => if q = p then some d else fs q
  | Event.removeFile p => fun q => if q = p then none else fs q
  | _ => fs

/-- Effect of a trace on a local filesystem. -/
def applyEvents (fs : String → Option (List Nat)) (evs : List Event) :
    String → Option (List Nat) :=
  evs.foldl applyEvent fs

/-- World responses consumed by one call of `printBlockList`: the error
of its `GetBlockList(All)` call and, on success, the committed and
uncommitted block names of the response. -/
structure PrintBlockListEnv where
  err : Option String
  committedNames : List String
  uncommittedNames : List String

/-- Embedding of `printBlockList` (lines 261-277): one
`GetBlockList(All)` call whose error is returned as-is, followed by
console prints of every block name. -/
def printBlockList (env : PrintBlockListEnv) (blobName : String) :
    List Event × Option String :=
  let ev0 := [Event.printMsg "Get block list...",
              Event.getBlockList blobName BlockListType.all]
  match env.err with
  | some e => (ev0, some e)
  | none =>
      (ev0 ++ [Event.printMsg ("Block blob " ++ blobName ++ " block list"),
               Event.printMsg "Committed Blocks IDs"]
           ++ env.committedNames.map (fun n => Event.printMsg n)
           ++ [Event.printMsg "Uncommited Blocks IDs"]
           ++ env.uncommittedNames.map (fun n => Event.printMsg n),
       none)

/-- World responses consumed by one call of `appendBlobOperations`. -/
structure AppendEnv where
  putErr : Option String
  appendErr : Option String
  rnd : Nat → Nat
  dl : DownloadEnv

/-- Embedding of `appendBlobOperations` (lines 97-119): create an empty
append blob, append one 42-byte random block, download to
`appendBlobFile`; every SDK error is wrapped and returned. -/
def appendBlobOperations (env : AppendEnv) (appendBlobName : String) :
    List Event × Option String :=
  let ev0 := [Event.printMsg "Create an empty append blob...",
              Event.putAppendBlob appendBlobName]
  match env.putErr with
  | some e => (ev0, some ("put append blob failed: " ++ e))
  | none =>
    let data := randomData env.rnd 42
    let ev1 := ev0 ++ [Event.printMsg "Append a block to the blob...",
                       Event.appendBlock appendBlobName data]
    match env.appendErr with
    | some e => (ev1, some ("append block failed: " ++ e))
    | none =>
      let dl := downloadBlob env.dl appendBlobName appendBlobFile
      match dl.2 with
      | some e => (ev1 ++ dl.1, some ("download blob failed: " ++ e))
      | none => (ev1 ++ dl.1, none)

/-- The loop of lines 151-155: from the `UncommittedBlocks` of the
`GetBlockList(Uncommitted)` response, build the `[]storage.Block` passed
to `PutBlockList`, copying each `Name` into `ID` and tagging every entry
`BlockStatusUncommitted`. -/
def mkUncommittedBlocksList (resp : List BlockResponse) : List Block :=
  resp.map (fun r => { ID := r.Name, Status := BlockStatus.uncommitted })

/-- World responses consumed by one call of `blockBlobOperations`. -/
structure BlockBlobEnv where
  createErr : Option String
  putBlockErr : Option String
  list1 : PrintBlockListEnv
  getUncommittedErr : Option String
  uncommittedBlocks : List BlockResponse
  putListErr : Option String
  list2 : PrintBlockListEnv
  rnd : Nat → Nat
  dl : DownloadEnv

/-- Embedding of `blockBlobOperations` (lines 125-174): create an empty
block blob, stage one 1984-byte block under `sampleBlockID`, print the
block list, query the uncommitted blocks, commit them via `PutBlockList`
(the list built by `mkUncommittedBlocksList`), print the block list
again, and download to `blockBlobFile`. -/
def blockBlobOperations (env : BlockBlobEnv) (blockBlobName : String) :
    List Event × Option String :=
  let ev0 := [Event.printMsg "Create an empty block blob...",
              Event.createBlockBlob blockBlobName]
  match env.createErr with
  | some e => (ev0, some ("create block blob failed: " ++ e))
  | none =>
    let data := randomData env.rnd 1984
    let ev1 := ev0 ++ [Event.printMsg "Put a block...",
                       Event.putBlock blockBlobName sampleBlockID data]
    match env.putBlockErr with
    | some e => (ev1, some ("put block failed: " ++ e))
    | none =>
      let pl1 := printBlockList env.list1 blockBlobName
      match pl1.2 with
      | some e => (ev1 ++ pl1.1, some ("get block list failed: " ++ e))
      | none =>
        let ev2 := ev1 ++ pl1.1
                 ++ [Event.printMsg "Get uncommitted blocks list...",
                     Event.getBlockList blockBlobName BlockListType.uncommitted]
        match env.getUncommittedErr with
        | some e => (ev2, some ("get block list failed: " ++ e))
        | none =>
          let uncommittedBlocksList := mkUncommittedBlocksList env.uncommittedBlocks
          let ev3 := ev2 ++ [Event.printMsg "Commit blocks...",
                             Event.putBlockList blockBlobName uncommittedBlocksList]
          match env.putListErr with
          | some e => (ev3, some ("put block list failed: " ++ e))
          | none =>
            let pl2 := printBlockList env.list2 blockBlobName
            match pl2.2 with
            | some e => (ev3 ++ pl2.1, some ("get block list failed: " ++ e))
            | none =>
              let dl := downloadBlob env.dl blockBlobName blockBlobFile
              match dl.2 with
              | some e => (ev3 ++ pl2.1 ++ dl.1, some ("download blob failed: " ++ e))
              | none => (ev3 ++ pl2.1 ++ dl.1, none)

/-- World responses consumed by one call of `pageBlobOperations`. -/
structure PageEnv where
  putErr : Option String
  writeErr : Option String
  getRangesErr : Option String
  pageList : List (Nat × Nat)
  rnd : Nat → Nat
  dl : DownloadEnv

/-- Embedding of `pageBlobOperations` (lines 178-217), generalised over
the declared content length: the source sets
`b.Properties.ContentLength = int64(512 * 5)` and this definition takes
that length as the parameter `contentLength`, changing nothing else.
The body performs no check whatsoever on the length: the first SDK call
`PutPageBlob` transmits it as given.  Then a 1536-byte range is written,
the valid page ranges are queried and printed, and the blob is
downloaded to `pageBlobFile`. -/
def pageBlobOperationsWithLength (env : PageEnv) (pageBlobName : String)
    (contentLength : Int) : List Event × Option String :=
  let ev0 := [Event.printMsg "Create an empty page blob...",
              Event.putPageBlob pageBlobName contentLength]
  match env.putErr with
  | some e => (ev0, some ("put page blob failed: " ++ e))
  | none =>
    let pageLen := 512 * 3
    let data := randomData env.rnd pageLen
    let ev1 := ev0 ++ [Event.printMsg "Writing in the page blob...",
                       Event.writeRange pageBlobName (pageLen - 1) data]
    match env.writeErr with
    | some e => (ev1, some ("write range failed: " ++ e))
    | none =>
      let ev2 := ev1 ++ [Event.printMsg "Get valid page ranges...",
                         Event.getPageRanges pageBlobName]
      match env.getRangesErr with
      | some e => (ev2, some ("get page ranges failed: " ++ e))
      | none =>
        let ev3 := ev2 ++ [Event.printMsg "Valid page ranges:"]
                 ++ env.pageList.map
                      (fun pr => Event.printMsg
                        ("From page " ++ toString pr.1 ++ " to page " ++ toString pr.2))
        let dl := downloadBlob env.dl pageBlobName pageBlobFile
        match dl.2 with
        | some e => (ev3 ++ dl.1, some ("download blob failed: " ++ e))
        | none => (ev3 ++ dl.1, none)

/-- Embedding of `pageBlobOperations` exactly as in the source, with the
literal declared length `int64(512 * 5)` of line 183. -/
def pageBlobOperations (env : PageEnv) (pageBlobName : String) :
    List Event × Option String :=
  pageBlobOperationsWithLength env pageBlobName (512 * 5)

/-- Embedding of `printBlobList` (lines 282-293): one `ListBlobs` call
whose error is returned as-is, then a print of every blob name. -/
def printBlobList (err : Option String) (names : List String)
    (containerName : String) : List Event × Option String :=
  let ev0 := [Event.printMsg ("Get blob list from container " ++ containerName ++ "..."),
              Event.listBlobs containerName]
  match err with
  | some e => (ev0, some e)
  | none =>
      (ev0 ++ [Event.printMsg ("Blobs inside " ++ containerName ++ " container:")]
           ++ names.map (fun n => Event.printMsg n),
       none)

/-- World responses consumed by one run of `blobSamples`: the emulator
flag resolved in `init`, the container-creation error, the three
workflow environments, and the outcomes of the listing, container
deletion and the three `os.Remove` calls.  The `remove*Res` fields model
the error values returned by `os.Remove`; the Go source discards those
return values, so no definition below reads these fields. -/
structure DriverEnv where
  emulator : Bool
  createContainerErr : Option String
  appendEnv : AppendEnv
  blockEnv : BlockBlobEnv
  pageEnv : PageEnv
  listBlobsErr : Option String
  blobNames : List String
  deleteContainerErr : Option String
  removeAppendRes : Option String
  removeBlockRes : Option String
  removePageRes : Option String

/-- Embedding of `onErrorFail` (lines 307-312) in the failing case: the
console print `message: err` that precedes `os.Exit(1)`. -/
def onErrorFailEvents (e : String) (message : String) : List Event :=
  [Event.printMsg (message ++ ": " ++ e)]

/-- The append-blob phase of `blobSamples` (lines 63-67): append blobs
are not supported in the Azure Storage emulator, so the call to
`appendBlobOperations` is skipped (performing nothing and failing with
no error) when the emulator flag is set. -/
def appendPhase (env : DriverEnv) (appendBlobName : String) :
    List Event × Option String :=
  if env.emulator then ([], none)
  else appendBlobOperations env.appendEnv appendBlobName

/-- Embedding of `blobSamples` (lines 49-93).  The result is the trace
of the run and its exit status: `some 1` when `onErrorFail` terminated
the process, `none` when the run completed.  The sequence follows the
source: create the container; run the append (unless emulator), block
and page workflows, each followed by `onErrorFail`; list the blobs; wait
for one line of operator input; delete the container; remove the three
local files, ignoring the `os.Remove` results as the source does. -/
def blobSamples (env : DriverEnv)
    (containerName pageBlobName appendBlobName blockBlobName : String) :
    List Event × Option Nat :=
  let ev0 := [Event.printMsg "Create container with private access type...",
              Event.createContainer containerName]
  match env.createContainerErr with
  | some e =>
    if env.emulator then
      (ev0 ++ onErrorFailEvents e "Create container failed: If you are running with the emulator credentials, plaase make sure you have started the storage emmulator", some 1)
    else
      (ev0 ++ onErrorFailEvents e "Create container failed", some 1)
  | none =>
    let ap := appendPhase env appendBlobName
    let ev1 := ev0 ++ ap.1
    match ap.2 with
    | some e => (ev1 ++ onErrorFailEvents e "Append blob operations failed", some 1)
    | none =>
      let bp := blockBlobOperations env.blockEnv blockBlobName
      let ev2 := ev1 ++ bp.1
      match bp.2 with
      | some e => (ev2 ++ onErrorFailEvents e "Block blob operations failed", some 1)
      | none =>
        let pp := pageBlobOperations env.pageEnv pageBlobName
        let ev3 := ev2 ++ pp.1
        match pp.2 with
        | some e => (ev3 ++ onErrorFailEvents e "Page blob operations failed", some 1)
        | none =>
          let lp := printBlobList env.listBlobsErr env.blobNames containerName
          let ev4 := ev3 ++ lp.1
          match lp.2 with
          | some e => (ev4 ++ onErrorFailEvents e "List blobs failed", some 1)
          | none =>
            let ev5 := ev4
              ++ [Event.printMsg "Press enter to delete the blobs, container and local files created in this sample...",
                  Event.readLine,
                  Event.printMsg "Delete container...",
                  Event.deleteContainer containerName]
            match env.deleteContainerErr with
            | some e => (ev5 ++ onErrorFailEvents e "Delete container failed", some 1)
            | none =>
              (ev5 ++ [Event.printMsg "Delete files...",
                       Event.removeFile appendBlobFile,
                       Event.removeFile blockBlobFile,
                       Event.removeFile pageBlobFile,
                       Event.printMsg "Done"],
               none)

/-- Block IDs staged by `PutBlock` calls in a trace. -/
def stagedBlockIDs (tr : List Event) : List String :=
  tr.filterMap (fun e =>
    match e with
    | Event.putBlock _ blockID _ => some blockID
    | _ => none)

/-- Append-blob events of a trace: the `PutAppendBlob` and `AppendBlock`
calls. -/
def appendBlobEvents (tr : List Event) : List Event :=
  tr.filter (fun e =>
    match e with
    | Event.putAppendBlob _ => true
    | Event.appendBlock _ _ => true
    | _ => false)

/-- An event of the destructive cleanup phase: deleting the container or
removing a local file. -/
def isDestructive : Event → Bool
  | Event.deleteContainer _ => true
  | Event.removeFile _ => true
  | _ => false

/-- An event of the pre-cleanup phases the cleanup is gated on: any
remote blob-workflow call, the blob listing, or the read of operator
input. -/
def isGateEvent : Event → Bool
  | Event.putAppendBlob _ => true
  | Event.appendBlock _ _ => true
  | Event.createBlockBlob _ => true
  | Event.putBlock _ _ _ => true
  | Event.getBlockList _ _ => true
  | Event.putBlockList _ _ => true
  | Event.putPageBlob _ _ => true
  | Event.writeRange _ _ _ => true
  | Event.getPageRanges _ => true
  | Event.getBlob _ => true
  | Event.statFile _ => true
  | Event.readAll _ => true
  | Event.closeReader _ => true
  | Event.writeFile _ _ => true
  | Event.listBlobs _ => true
  | Event.readLine => true
  | _ => false

/-- Cleanup ordering property of a trace: every destructive event comes
after every gate event, and the operator-input read precedes every
destructive event. -/
def cleanupGated (tr : List Event) : Prop :=
  (∀ i j (hi : i < tr.length) (hj : j < tr.length),
      isDestructive (tr.get ⟨i, hi⟩) = true →
      isGateEvent (tr.get ⟨j, hj⟩) = true → j < i)
  ∧ (∀ i (hi : i < tr.length),
      isDestructive (tr.get ⟨i, hi⟩) = true →
      Event.readLine ∈ tr.take i)

/-- Concrete environment for the witness of C2. -/
def c2wEnv : DownloadEnv :=
  { statRes := StatResult.ok, getReader := none, getErr := none,
    readData := [], readErr := none, writeErr := none }

/-- Concrete environment for the witness of C9: the stat call fails with
a non-`IsNotExist` error. -/
def c9wEnv : DownloadEnv :=
  { statRes := StatResult.errOther, getReader := some 0, getErr := none,
    readData := [7], readErr := none, writeErr := none }

/-- Concrete environment for the witness of C10: `Get` fails and, as in
Go, the returned reader is nil. -/
def c10wEnv : DownloadEnv :=
  { statRes := StatResult.errNotExist, getReader := none, getErr := some "boom",
    readData := [], readErr := none, writeErr := none }

/-- Successful download environment reused by concrete witnesses. -/
def dlOkEnv : DownloadEnv :=
  { statRes := StatResult.errNotExist, getReader := some 0, getErr := none,
    readData := [], readErr := none, writeErr := none }

/-- Concrete all-success environment for the block-blob workflow, used
by the witnesses of C1 and C4 and the counterexample of C4. -/
def c1wEnv : BlockBlobEnv :=
  { createErr := none, putBlockErr := none,
    list1 := { err := none, committedNames := [], uncommittedNames := ["MDAwMDA="] },
    getUncommittedErr := none,
    uncommittedBlocks := [{ Name := "MDAwMDA=" }],
    putListErr := none,
    list2 := { err := none, committedNames := ["MDAwMDA="], uncommittedNames := [] },
    rnd := fun _ => 0, dl := dlOkEnv }

/-- Concrete all-success environment for the page-blob workflow. -/
def c3env : PageEnv :=
  { putErr := none, writeErr := none, getRangesErr := none,
    pageList := [(0, 2)], rnd := fun _ => 0, dl := dlOkEnv }

/-- All-success append-blob environment for concrete witnesses. -/
def appendOkEnv : AppendEnv :=
  { putErr := none, appendErr := none, rnd := fun _ => 0, dl := dlOkEnv }

/-- All-success driver environment (emulator flag unset) for concrete
witnesses and for the counterexamples at the driver level. -/
def baseDriverEnv : DriverEnv :=
  { emulator := false, createContainerErr := none,
    appendEnv := appendOkEnv, blockEnv := c1wEnv, pageEnv := c3env,
    listBlobsErr := none,
    blobNames := ["demoAppendBlob", "demoBlockBlob", "demoPageBlob"],
    deleteContainerErr := none,
    removeAppendRes := none, removeBlockRes := none, removePageRes := none }

/-- Emulator-mode all-success driver environment. -/
def c6env : DriverEnv := { baseDriverEnv with emulator := true }

/-- Driver environment identical to `baseDriverEnv` except that the
`os.Remove` of the block-blob file fails. -/
def c5envFail : DriverEnv := { baseDriverEnv with removeBlockRes := some "permission denied" }

/-- Block lists passed to `PutBlockList` calls in a trace, in order. -/
def commitLists (tr : List Event) : List (List Block) :=
  tr.filterMap (fun e =>
    match e with
    | Event.putBlockList _ bs => some bs
    | _ => none)

/-- C8: for every non-negative `n`, `randomData(n)` returns a byte slice
of length exactly `n` whose every byte lies in the ASCII range 48 (the
character zero) through 121 (the character y) inclusive, so generated
payloads are never arbitrary binary bytes. -/
theorem randomData_length_and_range (rnd : Nat → Nat) (n : Nat) :
    (randomData rnd n).length = n
    ∧ ∀ bval ∈ randomData rnd n, 48 ≤ bval ∧ bval ≤ 121 := by
  constructor
  · simp [randomData]
  · intro bval hb
    simp only [randomData, List.mem_map, List.mem_range] at hb
    obtain ⟨i, _, rfl⟩ := hb
    have hran : ran = 74 := by decide
    have h0 : '0'.toNat = 48 := by decide
    rw [hran, h0]
    have hm : rnd i % 74 < 74 := Nat.mod_lt _ (by norm_num)
    rw [Nat.mod_eq_of_lt (by omega)]
    omega

/-- C2: whenever the `os.Stat` call in `downloadBlob` succeeds (the
local path already exists), the call fails with an error, performs no
remote read and no local write, and leaves every filesystem unchanged. -/
theorem downloadBlob_refuses_existing (env : DownloadEnv) (bn fn : String)
    (h : env.statRes = StatResult.ok) :
    (downloadBlob env bn fn).2.isSome = true
    ∧ (∀ blob, Event.getBlob blob ∉ (downloadBlob env bn fn).1)
    ∧ (∀ p d, Event.writeFile p d ∉ (downloadBlob env bn fn).1)
    ∧ ∀ fs, applyEvents fs (downloadBlob env bn fn).1 = fs := by
  refine ⟨?_, ?_, ?_, ?_⟩ <;> simp [downloadBlob, h, applyEvents, applyEvent]

/-- Witness for C2 at a concrete environment whose stat call succeeds. -/
theorem downloadBlob_refuses_existing_witness :
    (downloadBlob c2wEnv "b" "f").2.isSome = true
    ∧ (∀ blob, Event.getBlob blob ∉ (downloadBlob c2wEnv "b" "f").1)
    ∧ (∀ p d, Event.writeFile p d ∉ (downloadBlob c2wEnv "b" "f").1)
    ∧ ∀ fs, applyEvents fs (downloadBlob c2wEnv "b" "f").1 = fs :=
  downloadBlob_refuses_existing c2wEnv "b" "f" rfl

/-- C9: `downloadBlob` refuses (skips the remote `Get`) exactly when
`os.Stat` succeeds; when `Stat` fails for any other reason than
non-existence (`errOther`, e.g. a permission error) it proceeds to the
remote read and, absent later errors, to the local write. -/
theorem downloadBlob_refusal_iff_stat_ok (env : DownloadEnv) (bn fn : String) :
    (Event.getBlob bn ∈ (downloadBlob env bn fn).1 ↔ env.statRes ≠ StatResult.ok)
    ∧ (env.statRes = StatResult.errOther →
        Event.getBlob bn ∈ (downloadBlob env bn fn).1
        ∧ (env.getErr = none → env.readErr = none →
            Event.writeFile fn env.readData ∈ (downloadBlob env bn fn).1)) := by
  obtain ⟨st, gr, ge, rd, re, we⟩ := env
  cases st <;> cases ge <;> cases re <;> cases we <;>
    simp [downloadBlob]

/-- Witness for C9 at a concrete environment with a permission-style
stat failure. -/
theorem downloadBlob_refusal_iff_stat_ok_witness :
    (Event.getBlob "b" ∈ (downloadBlob c9wEnv "b" "f").1 ↔ c9wEnv.statRes ≠ StatResult.ok)
    ∧ (c9wEnv.statRes = StatResult.errOther →
        Event.getBlob "b" ∈ (downloadBlob c9wEnv "b" "f").1
        ∧ (c9wEnv.getErr = none → c9wEnv.readErr = none →
            Event.writeFile "f" c9wEnv.readData ∈ (downloadBlob c9wEnv "b" "f").1)) :=
  downloadBlob_refusal_iff_stat_ok c9wEnv "b" "f"

/-- C10: when the path does not block the download and `Get` returns an
error, the deferred `Close` still runs on the reader value that this
`Get` call returned, because the `defer` is registered before the error
check; the function then returns the wrapped `Get` error. -/
theorem downloadBlob_close_after_failed_get (env : DownloadEnv)
    (bn fn e : String)
    (h1 : env.statRes ≠ StatResult.ok) (h2 : env.getErr = some e) :
    Event.closeReader env.getReader ∈ (downloadBlob env bn fn).1
    ∧ (downloadBlob env bn fn).2 = some ("get blob failed: " ++ e) := by
  obtain ⟨st, gr, ge, rd, re, we⟩ := env
  cases st <;> simp_all [downloadBlob]

/-- Witness for C10 at a concrete environment whose `Get` call fails. -/
theorem downloadBlob_close_after_failed_get_witness :
    Event.closeReader c10wEnv.getReader ∈ (downloadBlob c10wEnv "b" "f").1
    ∧ (downloadBlob c10wEnv "b" "f").2 = some ("get blob failed: " ++ "boom") :=
  downloadBlob_close_after_failed_get c10wEnv "b" "f" "boom" (by decide) rfl

/-- Helper: when the block blob is created, the `PutBlock` staging call
with `sampleBlockID` and the 1984-byte payload is in the trace, whatever
happens later. -/
theorem putBlock_mem (env : BlockBlobEnv) (name : String)
    (h1 : env.createErr = none) :
    Event.putBlock name sampleBlockID (randomData env.rnd 1984)
      ∈ (blockBlobOperations env name).1 := by
  rcases h2 : env.putBlockErr with _ | e2 <;>
  rcases h3 : (printBlockList env.list1 name).2 with _ | e3 <;>
  rcases h4 : env.getUncommittedErr with _ | e4 <;>
  rcases h5 : env.putListErr with _ | e5 <;>
  rcases h6 : (printBlockList env.list2 name).2 with _ | e6 <;>
  rcases h7 : (downloadBlob env.dl name blockBlobFile).2 with _ | e7 <;>
    simp [blockBlobOperations, h1, h2, h3, h4, h5, h6, h7]

/-- Helper: the error component of `printBlockList` is exactly the
error of its `GetBlockList(All)` call. -/
theorem printBlockList_snd (env : PrintBlockListEnv) (b : String) :
    (printBlockList env b).2 = env.err := by
  cases h : env.err <;> simp [printBlockList, h]

/-- Helper: when the block-blob workflow reaches the commit phase, the
`PutBlockList` call carrying `mkUncommittedBlocksList` of the queried
uncommitted blocks is in the trace. -/
theorem putBlockList_mem (env : BlockBlobEnv) (name : String)
    (h1 : env.createErr = none) (h2 : env.putBlockErr = none)
    (h3 : env.list1.err = none) (h4 : env.getUncommittedErr = none) :
    Event.putBlockList name (mkUncommittedBlocksList env.uncommittedBlocks)
      ∈ (blockBlobOperations env name).1 := by
  rcases h5 : env.putListErr with _ | e5 <;>
  rcases h6 : env.list2.err with _ | e6 <;>
  rcases h7 : (downloadBlob env.dl name blockBlobFile).2 with _ | e7 <;>
    simp [blockBlobOperations, printBlockList_snd,
          h1, h2, h3, h4, h5, h6, h7]

/-- Helper: `commitLists` distributes over trace concatenation. -/
theorem commitLists_append (A B : List Event) :
    commitLists (A ++ B) = commitLists A ++ commitLists B := by
  simp [commitLists]

/-- Helper: console prints contribute no commit. -/
theorem commitLists_printMsg (m : String) (tr : List Event) :
    commitLists (Event.printMsg m :: tr) = commitLists tr := rfl

/-- Helper: block-blob creation contributes no commit. -/
theorem commitLists_createBlockBlob (n : String) (tr : List Event) :
    commitLists (Event.createBlockBlob n :: tr) = commitLists tr := rfl

/-- Helper: block staging contributes no commit. -/
theorem commitLists_putBlock (n i : String) (d : List Nat) (tr : List Event) :
    commitLists (Event.putBlock n i d :: tr) = commitLists tr := rfl

/-- Helper: block-list queries contribute no commit. -/
theorem commitLists_getBlockList (n : String) (ty : BlockListType) (tr : List Event) :
    commitLists (Event.getBlockList n ty :: tr) = commitLists tr := rfl

/-- Helper: a `PutBlockList` call contributes its block list. -/
theorem commitLists_putBlockList (n : String) (bs : List Block) (tr : List Event) :
    commitLists (Event.putBlockList n bs :: tr) = bs :: commitLists tr := rfl

/-- Helper: the empty trace has no commit. -/
theorem commitLists_nil : commitLists [] = [] := rfl

/-- Helper: a `printBlockList` trace contains no `PutBlockList` call. -/
theorem commitLists_printBlockList (env : PrintBlockListEnv) (b : String) :
    commitLists (printBlockList env b).1 = [] := by
  rcases h : env.err with _ | e <;>
    simp [printBlockList, commitLists, h]

/-- Helper: a `downloadBlob` trace contains no `PutBlockList` call. -/
theorem commitLists_downloadBlob (env : DownloadEnv) (bn fn : String) :
    commitLists (downloadBlob env bn fn).1 = [] := by
  rcases h1 : env.statRes with _ | _ | _ <;>
  rcases h2 : env.getErr with _ | e2 <;>
  rcases h3 : env.readErr with _ | e3 <;>
  rcases h4 : env.writeErr with _ | e4 <;>
    simp [downloadBlob, commitLists, h1, h2, h3, h4]

set_option maxHeartbeats 1000000 in
/-- Helper: when the block-blob workflow reaches the commit phase, the
one and only `PutBlockList` call of its trace carries exactly
`mkUncommittedBlocksList` of the queried uncommitted blocks. -/
theorem blockBlob_commitLists (env : BlockBlobEnv) (name : String)
    (h1 : env.createErr = none) (h2 : env.putBlockErr = none)
    (h3 : env.list1.err = none) (h4 : env.getUncommittedErr = none) :
    commitLists (blockBlobOperations env name).1 =
      [mkUncommittedBlocksList env.uncommittedBlocks] := by
  have hc1 := commitLists_printBlockList env.list1 name
  have hc2 := commitLists_printBlockList env.list2 name
  have hcd := commitLists_downloadBlob env.dl name blockBlobFile
  rcases h5 : env.putListErr with _ | e5 <;>
  rcases h6 : env.list2.err with _ | e6 <;>
  rcases h7 : (downloadBlob env.dl name blockBlobFile).2 with _ | e7 <;>
    simp only [blockBlobOperations, printBlockList_snd,
               h1, h2, h3, h4, h5, h6, h7,
               commitLists_append, commitLists_printMsg,
               commitLists_createBlockBlob, commitLists_putBlock,
               commitLists_getBlockList, commitLists_putBlockList,
               commitLists_nil, hc1, hc2, hcd,
               List.append_nil, List.nil_append]

/-- C1: whenever the block-blob workflow reaches its commit phase, the
one and only block list passed to a `PutBlockList` call in its trace is
exactly `mkUncommittedBlocksList` of the blocks returned by the
preceding `GetBlockList(Uncommitted)` query: its IDs are those blocks'
names in the same order and every entry is tagged `Uncommitted`. -/
theorem putBlockList_refs_uncommitted (env : BlockBlobEnv) (name : String)
    (h1 : env.createErr = none) (h2 : env.putBlockErr = none)
    (h3 : env.list1.err = none) (h4 : env.getUncommittedErr = none) :
    Event.putBlockList name (mkUncommittedBlocksList env.uncommittedBlocks)
      ∈ (blockBlobOperations env name).1
    ∧ commitLists (blockBlobOperations env name).1
        = [mkUncommittedBlocksList env.uncommittedBlocks]
    ∧ (mkUncommittedBlocksList env.uncommittedBlocks).map Block.ID
        = env.uncommittedBlocks.map BlockResponse.Name
    ∧ ∀ blk ∈ mkUncommittedBlocksList env.uncommittedBlocks,
        blk.Status = BlockStatus.uncommitted := by
  refine ⟨putBlockList_mem env name h1 h2 h3 h4,
          blockBlob_commitLists env name h1 h2 h3 h4, ?_, ?_⟩
  · simp [mkUncommittedBlocksList]
  · intro blk hb
    simp only [mkUncommittedBlocksList, List.mem_map] at hb
    obtain ⟨r, _, rfl⟩ := hb
    rfl

/-- Witness for C1 at a concrete environment whose uncommitted-block
query returns one block. -/
theorem putBlockList_refs_uncommitted_witness :
    Event.putBlockList "demoBlockBlob" (mkUncommittedBlocksList c1wEnv.uncommittedBlocks)
      ∈ (blockBlobOperations c1wEnv "demoBlockBlob").1
    ∧ commitLists (blockBlobOperations c1wEnv "demoBlockBlob").1
        = [mkUncommittedBlocksList c1wEnv.uncommittedBlocks]
    ∧ (mkUncommittedBlocksList c1wEnv.uncommittedBlocks).map Block.ID
        = c1wEnv.uncommittedBlocks.map BlockResponse.Name
    ∧ ∀ blk ∈ mkUncommittedBlocksList c1wEnv.uncommittedBlocks,
        blk.Status = BlockStatus.uncommitted :=
  putBlockList_refs_uncommitted c1wEnv "demoBlockBlob" rfl rfl rfl rfl

/-- C4 counterexample: in a completed run of the block-blob workflow the
only staged block ID is `base64("00000") = "MDAwMDA="`, which is not the
`"AAAAA"` the claim names. -/
theorem blockBlob_blockID_not_AAAAA :
    stagedBlockIDs (blockBlobOperations c1wEnv "demoBlockBlob").1 = ["MDAwMDA="]
    ∧ sampleBlockID = "MDAwMDA="
    ∧ ("MDAwMDA=" : String) ≠ "AAAAA" :=
  ⟨rfl, rfl, by decide⟩

/-- C4 as amended: the single staged block is uploaded under the block
ID `base64("00000") = "MDAwMDA="` (not `"AAAAA"`) and carries a payload
of exactly 1984 bytes. -/
theorem blockBlob_stages_base64_id_1984_bytes (env : BlockBlobEnv) (name : String)
    (h1 : env.createErr = none) :
    Event.putBlock name sampleBlockID (randomData env.rnd 1984)
      ∈ (blockBlobOperations env name).1
    ∧ sampleBlockID = "MDAwMDA="
    ∧ (randomData env.rnd 1984).length = 1984 :=
  ⟨putBlock_mem env name h1, rfl, by simp [randomData]⟩

/-- Witness for the amended C4 at a concrete environment. -/
theorem blockBlob_stages_base64_id_1984_bytes_witness :
    Event.putBlock "demoBlockBlob" sampleBlockID (randomData c1wEnv.rnd 1984)
      ∈ (blockBlobOperations c1wEnv "demoBlockBlob").1
    ∧ sampleBlockID = "MDAwMDA="
    ∧ (randomData c1wEnv.rnd 1984).length = 1984 :=
  blockBlob_stages_base64_id_1984_bytes c1wEnv "demoBlockBlob" rfl

/-- Helper: for every declared length, the remote `PutPageBlob` call
transmitting that length is in the page-blob workflow's trace; the body
performs no local validation of the length at all. -/
theorem putPageBlob_mem (env : PageEnv) (name : String) (L : Int) :
    Event.putPageBlob name L ∈ (pageBlobOperationsWithLength env name L).1 := by
  rcases h1 : env.putErr with _ | e1 <;>
  rcases h2 : env.writeErr with _ | e2 <;>
  rcases h3 : env.getRangesErr with _ | e3 <;>
  rcases h4 : (downloadBlob env.dl name pageBlobFile).2 with _ | e4 <;>
    simp [pageBlobOperationsWithLength, h1, h2, h3, h4]

/-- C3 counterexample: run the page-blob workflow body with the declared
length 100, which is not a multiple of 512.  No local rejection happens:
the trace contains the remote `PutPageBlob` call transmitting 100, and
the workflow completes without error, refuting both directions of the
claim (100 is accepted, and it is not rejected before a remote call). -/
theorem pageBlob_no_local_length_check :
    Event.putPageBlob "demoPageBlob" 100
      ∈ (pageBlobOperationsWithLength c3env "demoPageBlob" 100).1
    ∧ (pageBlobOperationsWithLength c3env "demoPageBlob" 100).2 = none
    ∧ ((100 : Int) % 512 ≠ 0) :=
  ⟨putPageBlob_mem c3env "demoPageBlob" 100, rfl, by decide⟩

/-- C3 as amended: the page-blob workflow performs no local check of the
declared length; it always declares the fixed length `512 * 5 = 2560`,
which happens to be a multiple of 512, and any length whatsoever is
transmitted unvalidated to the remote `PutPageBlob` call. -/
theorem pageBlob_fixed_length_multiple_of_512 (env : PageEnv) (name : String) :
    Event.putPageBlob name (512 * 5) ∈ (pageBlobOperations env name).1
    ∧ ((512 * 5 : Int) % 512 = 0)
    ∧ ∀ L : Int, Event.putPageBlob name L
        ∈ (pageBlobOperationsWithLength env name L).1 :=
  ⟨putPageBlob_mem env name (512 * 5), by decide, fun L => putPageBlob_mem env name L⟩

/-- Helper: the error component of `printBlobList` is exactly the error
of its `ListBlobs` call. -/
theorem printBlobList_snd (err : Option String) (names : List String) (c : String) :
    (printBlobList err names c).2 = err := by
  cases err <;> simp [printBlobList]

/-- Helper: the `PutAppendBlob` creation call is always in the
append-blob workflow's trace. -/
theorem putAppendBlob_mem (env : AppendEnv) (a : String) :
    Event.putAppendBlob a ∈ (appendBlobOperations env a).1 := by
  rcases h1 : env.putErr with _ | e1 <;>
  rcases h2 : env.appendErr with _ | e2 <;>
  rcases h3 : (downloadBlob env.dl a appendBlobFile).2 with _ | e3 <;>
    simp [appendBlobOperations, h1, h2, h3]

/-- Helper: the `CreateBlockBlob` creation call is always in the
block-blob workflow's trace. -/
theorem createBlockBlob_mem (env : BlockBlobEnv) (b : String) :
    Event.createBlockBlob b ∈ (blockBlobOperations env b).1 := by
  rcases h1 : env.createErr with _ | e1 <;>
  rcases h2 : env.putBlockErr with _ | e2 <;>
  rcases h3 : env.list1.err with _ | e3 <;>
  rcases h4 : env.getUncommittedErr with _ | e4 <;>
  rcases h5 : env.putListErr with _ | e5 <;>
  rcases h6 : env.list2.err with _ | e6 <;>
  rcases h7 : (downloadBlob env.dl b blockBlobFile).2 with _ | e7 <;>
    simp [blockBlobOperations, printBlockList_snd,
          h1, h2, h3, h4, h5, h6, h7]

/-- Helper: in a run of `blobSamples` in which every consumed operation
succeeds, the trace decomposes into container provisioning, then the
append phase, then the block-blob workflow, then the page-blob workflow,
then the blob listing, then the operator-input read, then the cleanup;
and the run completes (no `os.Exit`). -/
theorem blobSamples_success_decomp (env : DriverEnv) (c p a b : String)
    (h1 : env.createContainerErr = none)
    (h2 : (appendPhase env a).2 = none)
    (h3 : (blockBlobOperations env.blockEnv b).2 = none)
    (h4 : (pageBlobOperations env.pageEnv p).2 = none)
    (h5 : env.listBlobsErr = none)
    (h6 : env.deleteContainerErr = none) :
    (blobSamples env c p a b).1 =
      [Event.printMsg "Create container with private access type...",
       Event.createContainer c]
      ++ (appendPhase env a).1
      ++ (blockBlobOperations env.blockEnv b).1
      ++ (pageBlobOperations env.pageEnv p).1
      ++ (printBlobList env.listBlobsErr env.blobNames c).1
      ++ [Event.printMsg "Press enter to delete the blobs, container and local files created in this sample...",
          Event.readLine,
          Event.printMsg "Delete container...",
          Event.deleteContainer c,
          Event.printMsg "Delete files...",
          Event.removeFile appendBlobFile,
          Event.removeFile blockBlobFile,
          Event.removeFile pageBlobFile,
          Event.printMsg "Done"]
    ∧ (blobSamples env c p a b).2 = none := by
  constructor <;>
    simp [blobSamples, printBlobList_snd, h1, h2, h3, h4, h5, h6]

/-- C6 as amended: in a run in which every consumed operation succeeds,
the three blob workflows run in the order append, block, page, after
container provisioning and before verification and cleanup — except
that with the emulator flag set, the append workflow is skipped entirely
(append blobs are unsupported in the Azure Storage emulator) and only
the block and page workflows run, in that order. -/
theorem workflows_in_order (env : DriverEnv) (c p a b : String)
    (h1 : env.createContainerErr = none)
    (h2 : (appendPhase env a).2 = none)
    (h3 : (blockBlobOperations env.blockEnv b).2 = none)
    (h4 : (pageBlobOperations env.pageEnv p).2 = none)
    (h5 : env.listBlobsErr = none)
    (h6 : env.deleteContainerErr = none) :
    (blobSamples env c p a b).1 =
      [Event.printMsg "Create container with private access type...",
       Event.createContainer c]
      ++ (appendPhase env a).1
      ++ (blockBlobOperations env.blockEnv b).1
      ++ (pageBlobOperations env.pageEnv p).1
      ++ (printBlobList env.listBlobsErr env.blobNames c).1
      ++ [Event.printMsg "Press enter to delete the blobs, container and local files created in this sample...",
          Event.readLine,
          Event.printMsg "Delete container...",
          Event.deleteContainer c,
          Event.printMsg "Delete files...",
          Event.removeFile appendBlobFile,
          Event.removeFile blockBlobFile,
          Event.removeFile pageBlobFile,
          Event.printMsg "Done"]
    ∧ (env.emulator = false → Event.putAppendBlob a ∈ (appendPhase env a).1)
    ∧ (env.emulator = true → (appendPhase env a).1 = [])
    ∧ Event.createBlockBlob b ∈ (blockBlobOperations env.blockEnv b).1
    ∧ Event.putPageBlob p (512 * 5) ∈ (pageBlobOperations env.pageEnv p).1 := by
  refine ⟨(blobSamples_success_decomp env c p a b h1 h2 h3 h4 h5 h6).1,
          ?_, ?_, createBlockBlob_mem env.blockEnv b,
          putPageBlob_mem env.pageEnv p (512 * 5)⟩
  · intro hemu
    simp only [appendPhase, hemu, if_neg Bool.false_ne_true]
    exact putAppendBlob_mem env.appendEnv a
  · intro hemu
    simp [appendPhase, hemu]

/-- Witness for the amended C6 at the all-success environment. -/
theorem workflows_in_order_witness :
    (blobSamples baseDriverEnv "c" "p" "a" "b").1 =
      [Event.printMsg "Create container with private access type...",
       Event.createContainer "c"]
      ++ (appendPhase baseDriverEnv "a").1
      ++ (blockBlobOperations baseDriverEnv.blockEnv "b").1
      ++ (pageBlobOperations baseDriverEnv.pageEnv "p").1
      ++ (printBlobList baseDriverEnv.listBlobsErr baseDriverEnv.blobNames "c").1
      ++ [Event.printMsg "Press enter to delete the blobs, container and local files created in this sample...",
          Event.readLine,
          Event.printMsg "Delete container...",
          Event.deleteContainer "c",
          Event.printMsg "Delete files...",
          Event.removeFile appendBlobFile,
          Event.removeFile blockBlobFile,
          Event.removeFile pageBlobFile,
          Event.printMsg "Done"]
    ∧ (baseDriverEnv.emulator = false →
        Event.putAppendBlob "a" ∈ (appendPhase baseDriverEnv "a").1)
    ∧ (baseDriverEnv.emulator = true → (appendPhase baseDriverEnv "a").1 = [])
    ∧ Event.createBlockBlob "b" ∈ (blockBlobOperations baseDriverEnv.blockEnv "b").1
    ∧ Event.putPageBlob "p" (512 * 5) ∈ (pageBlobOperations baseDriverEnv.pageEnv "p").1 :=
  workflows_in_order baseDriverEnv "c" "p" "a" "b" rfl rfl rfl rfl rfl rfl

/-- C6 counterexample: a completed emulator-mode run contains no
append-blob operation at all — the append workflow did not execute, so
it is not the case that all three workflows execute in every run. -/
theorem emulator_run_skips_append :
    c6env.emulator = true
    ∧ appendBlobEvents (blobSamples c6env "c" "p" "a" "b").1 = []
    ∧ (blobSamples c6env "c" "p" "a" "b").2 = none := by
  refine ⟨rfl, ?_, rfl⟩
  rfl

/-- C5 counterexample: the `os.Remove` calls of the cleanup are failing
operations whose error results the program discards.  A run in which the
block-blob file removal fails is observationally identical — same trace
(hence same console output) and same exit status — to a run in which it
succeeds, even though the removal was performed; the failure is surfaced
neither to the console nor to any caller. -/
theorem removeFile_error_not_surfaced :
    c5envFail.removeBlockRes = some "permission denied"
    ∧ baseDriverEnv.removeBlockRes = none
    ∧ Event.removeFile blockBlobFile ∈ (blobSamples c5envFail "c" "p" "a" "b").1
    ∧ blobSamples c5envFail "c" "p" "a" "b" = blobSamples baseDriverEnv "c" "p" "a" "b" := by
  refine ⟨rfl, rfl, ?_, rfl⟩
  have hd := blobSamples_success_decomp c5envFail "c" "p" "a" "b" rfl rfl rfl rfl rfl rfl
  rw [hd.1]
  simp

/-- C5 as amended: every failing operation whose error result the
program consumes — container creation, the three blob workflows (which
return their wrapped SDK and download errors), the blob listing and the
container deletion — is surfaced: it makes the run terminate through
`onErrorFail` (printing the error and exiting with status 1), so a run
can only complete when all of them succeeded.  The sole exception are
the three `os.Remove` calls of the cleanup, whose error results the
source discards. -/
theorem consumed_failures_force_exit (env : DriverEnv) (c p a b : String)
    (h : (blobSamples env c p a b).2 = none) :
    env.createContainerErr = none
    ∧ (appendPhase env a).2 = none
    ∧ (blockBlobOperations env.blockEnv b).2 = none
    ∧ (pageBlobOperations env.pageEnv p).2 = none
    ∧ env.listBlobsErr = none
    ∧ env.deleteContainerErr = none := by
  rcases h1 : env.createContainerErr with _ | e1 <;>
  rcases hemu : env.emulator with _ | _ <;>
  rcases h2 : (appendPhase env a).2 with _ | e2 <;>
  rcases h3 : (blockBlobOperations env.blockEnv b).2 with _ | e3 <;>
  rcases h4 : (pageBlobOperations env.pageEnv p).2 with _ | e4 <;>
  rcases h5 : env.listBlobsErr with _ | e5 <;>
  rcases h6 : env.deleteContainerErr with _ | e6 <;>
    simp_all [blobSamples, printBlobList_snd, hemu]

/-- Witness for the amended C5 at the all-success environment. -/
theorem consumed_failures_force_exit_witness :
    baseDriverEnv.createContainerErr = none
    ∧ (appendPhase baseDriverEnv "a").2 = none
    ∧ (blockBlobOperations baseDriverEnv.blockEnv "b").2 = none
    ∧ (pageBlobOperations baseDriverEnv.pageEnv "p").2 = none
    ∧ baseDriverEnv.listBlobsErr = none
    ∧ baseDriverEnv.deleteContainerErr = none :=
  consumed_failures_force_exit baseDriverEnv "c" "p" "a" "b" rfl

/-- Console prints are not destructive. -/
@[simp] theorem isDestructive_printMsg (m : String) :
    isDestructive (Event.printMsg m) = false := rfl

/-- Container creation is not destructive. -/
@[simp] theorem isDestructive_createContainer (n : String) :
    isDestructive (Event.createContainer n) = false := rfl

/-- Append-blob creation is not destructive. -/
@[simp] theorem isDestructive_putAppendBlob (n : String) :
    isDestructive (Event.putAppendBlob n) = false := rfl

/-- Block appends are not destructive. -/
@[simp] theorem isDestructive_appendBlock (n : String) (d : List Nat) :
    isDestructive (Event.appendBlock n d) = false := rfl

/-- Block-blob creation is not destructive. -/
@[simp] theorem isDestructive_createBlockBlob (n : String) :
    isDestructive (Event.createBlockBlob n) = false := rfl

/-- Block staging is not destructive. -/
@[simp] theorem isDestructive_putBlock (n i : String) (d : List Nat) :
    isDestructive (Event.putBlock n i d) = false := rfl

/-- Block-list queries are not destructive. -/
@[simp] theorem isDestructive_getBlockList (n : String) (ty : BlockListType) :
    isDestructive (Event.getBlockList n ty) = false := rfl

/-- Block-list commits are not destructive. -/
@[simp] theorem isDestructive_putBlockList (n : String) (bs : List Block) :
    isDestructive (Event.putBlockList n bs) = false := rfl

/-- Page-blob creation is not destructive. -/
@[simp] theorem isDestructive_putPageBlob (n : String) (L : Int) :
    isDestructive (Event.putPageBlob n L) = false := rfl

/-- Range writes are not destructive. -/
@[simp] theorem isDestructive_writeRange (n : String) (o : Nat) (d : List Nat) :
    isDestructive (Event.writeRange n o d) = false := rfl

/-- Page-range queries are not destructive. -/
@[simp] theorem isDestructive_getPageRanges (n : String) :
    isDestructive (Event.getPageRanges n) = false := rfl

/-- Blob reads are not destructive. -/
@[simp] theorem isDestructive_getBlob (n : String) :
    isDestructive (Event.getBlob n) = false := rfl

/-- Stat calls are not destructive. -/
@[simp] theorem isDestructive_statFile (p : String) :
    isDestructive (Event.statFile p) = false := rfl

/-- Body reads are not destructive. -/
@[simp] theorem isDestructive_readAll (r : Option Nat) :
    isDestructive (Event.readAll r) = false := rfl

/-- Reader closes are not destructive. -/
@[simp] theorem isDestructive_closeReader (r : Option Nat) :
    isDestructive (Event.closeReader r) = false := rfl

/-- File writes are not destructive (they create the download file; the
destructive cleanup is container deletion and file removal). -/
@[simp] theorem isDestructive_writeFile (p : String) (d : List Nat) :
    isDestructive (Event.writeFile p d) = false := rfl

/-- Blob listings are not destructive. -/
@[simp] theorem isDestructive_listBlobs (c : String) :
    isDestructive (Event.listBlobs c) = false := rfl

/-- The operator-input read is not destructive. -/
@[simp] theorem isDestructive_readLine :
    isDestructive Event.readLine = false := rfl

/-- Container deletion is destructive. -/
@[simp] theorem isDestructive_deleteContainer (n : String) :
    isDestructive (Event.deleteContainer n) = true := rfl

/-- File removal is destructive. -/
@[simp] theorem isDestructive_removeFile (p : String) :
    isDestructive (Event.removeFile p) = true := rfl

/-- Console prints are not gate events. -/
@[simp] theorem isGateEvent_printMsg (m : String) :
    isGateEvent (Event.printMsg m) = false := rfl

/-- Container deletion is not a gate event. -/
@[simp] theorem isGateEvent_deleteContainer (n : String) :
    isGateEvent (Event.deleteContainer n) = false := rfl

/-- File removal is not a gate event. -/
@[simp] theorem isGateEvent_removeFile (p : String) :
    isGateEvent (Event.removeFile p) = false := rfl

/-- The operator-input read is a gate event. -/
@[simp] theorem isGateEvent_readLine :
    isGateEvent Event.readLine = true := rfl

/-- Helper: no event of a `downloadBlob` trace is destructive. -/
theorem downloadBlob_no_destr (env : DownloadEnv) (bn fn : String) :
    ∀ e ∈ (downloadBlob env bn fn).1, isDestructive e = false := by
  rcases h1 : env.statRes with _ | _ | _ <;>
  rcases h2 : env.getErr with _ | e2 <;>
  rcases h3 : env.readErr with _ | e3 <;>
  rcases h4 : env.writeErr with _ | e4 <;>
    simp [downloadBlob, isDestructive, h1, h2, h3, h4]

/-- Helper: no event of a `printBlockList` trace is destructive. -/
theorem printBlockList_no_destr (env : PrintBlockListEnv) (b : String) :
    ∀ e ∈ (printBlockList env b).1, isDestructive e = false := by
  rcases h : env.err with _ | e1 <;>
    simp [printBlockList, h, List.forall_mem_append, or_imp, forall_and,
          forall_exists_index]

/-- Helper: an empty trace has no destructive event. -/
theorem no_destr_nil : ∀ e ∈ ([] : List Event), isDestructive e = false := by
  simp

/-- Helper: prepending a non-destructive event preserves freedom from
destructive events. -/
theorem no_destr_cons {a : Event} {B : List Event}
    (ha : isDestructive a = false)
    (hB : ∀ e ∈ B, isDestructive e = false) :
    ∀ e ∈ a :: B, isDestructive e = false := by
  intro e he
  rcases List.mem_cons.1 he with h | h
  · exact h ▸ ha
  · exact hB e h

/-- Helper: appending two destructive-free traces gives a
destructive-free trace. -/
theorem no_destr_append {A B : List Event}
    (hA : ∀ e ∈ A, isDestructive e = false)
    (hB : ∀ e ∈ B, isDestructive e = false) :
    ∀ e ∈ A ++ B, isDestructive e = false := by
  intro e he
  rcases List.mem_append.1 he with h | h
  · exact hA e h
  · exact hB e h

/-- Helper: no event of an `appendBlobOperations` trace is destructive. -/
theorem appendBlobOperations_no_destr (env : AppendEnv) (a : String) :
    ∀ e ∈ (appendBlobOperations env a).1, isDestructive e = false := by
  have hd := downloadBlob_no_destr env.dl a appendBlobFile
  rcases h1 : env.putErr with _ | e1 <;>
  rcases h2 : env.appendErr with _ | e2 <;>
  rcases h3 : (downloadBlob env.dl a appendBlobFile).2 with _ | e3 <;>
    (simp only [appendBlobOperations, h1, h2, h3]
     repeat first
       | exact hd
       | rfl
       | exact no_destr_nil
       | apply no_destr_cons
       | apply no_destr_append)

/-- Helper: no event of the driver's append phase is destructive. -/
theorem appendPhase_no_destr (env : DriverEnv) (a : String) :
    ∀ e ∈ (appendPhase env a).1, isDestructive e = false := by
  rcases h : env.emulator with _ | _
  · simp only [appendPhase, h, Bool.false_eq_true, if_false]
    exact appendBlobOperations_no_destr env.appendEnv a
  · simp [appendPhase, h]

set_option maxHeartbeats 1000000 in
/-- Helper: no event of a `blockBlobOperations` trace is destructive. -/
theorem blockBlobOperations_no_destr (env : BlockBlobEnv) (b : String) :
    ∀ e ∈ (blockBlobOperations env b).1, isDestructive e = false := by
  have hd := downloadBlob_no_destr env.dl b blockBlobFile
  have hp1 := printBlockList_no_destr env.list1 b
  have hp2 := printBlockList_no_destr env.list2 b
  rcases h1 : env.createErr with _ | e1 <;>
  rcases h2 : env.putBlockErr with _ | e2 <;>
  rcases h3 : (printBlockList env.list1 b).2 with _ | e3 <;>
  rcases h4 : env.getUncommittedErr with _ | e4 <;>
  rcases h5 : env.putListErr with _ | e5 <;>
  rcases h6 : (printBlockList env.list2 b).2 with _ | e6 <;>
  rcases h7 : (downloadBlob env.dl b blockBlobFile).2 with _ | e7 <;>
    (simp only [blockBlobOperations, h1, h2, h3, h4, h5, h6, h7]
     repeat first
       | exact hd
       | exact hp1
       | exact hp2
       | rfl
       | exact no_destr_nil
       | apply no_destr_cons
       | apply no_destr_append)

/-- Helper: no event of a page-blob workflow trace is destructive. -/
theorem pageBlob_no_destr (env : PageEnv) (p : String) (L : Int) :
    ∀ e ∈ (pageBlobOperationsWithLength env p L).1, isDestructive e = false := by
  have hd := downloadBlob_no_destr env.dl p pageBlobFile
  have hm : ∀ e ∈ env.pageList.map
      (fun pr => Event.printMsg
        ("From page " ++ toString pr.1 ++ " to page " ++ toString pr.2)),
      isDestructive e = false := by
    intro e he
    rcases List.mem_map.1 he with ⟨x, _, h⟩
    subst h
    rfl
  rcases h1 : env.putErr with _ | e1 <;>
  rcases h2 : env.writeErr with _ | e2 <;>
  rcases h3 : env.getRangesErr with _ | e3 <;>
  rcases h4 : (downloadBlob env.dl p pageBlobFile).2 with _ | e4 <;>
    (simp only [pageBlobOperationsWithLength, h1, h2, h3, h4]
     repeat first
       | exact hd
       | exact hm
       | rfl
       | exact no_destr_nil
       | apply no_destr_cons
       | apply no_destr_append)

/-- Helper: no event of a `printBlobList` trace is destructive. -/
theorem printBlobList_no_destr (err : Option String) (names : List String)
    (c : String) : ∀ e ∈ (printBlobList err names c).1, isDestructive e = false := by
  rcases h : err with _ | e1 <;>
    simp [printBlobList, h, List.forall_mem_append, or_imp, forall_and,
          forall_exists_index]

/-- Helper: a trace that splits into a destructive-free part followed by
a gate-free part, with the operator-input read in the first part
whenever the second is non-empty, satisfies `cleanupGated`. -/
theorem cleanupGated_of_split (tr A B : List Event) (htr : tr = A ++ B)
    (hA : ∀ e ∈ A, isDestructive e = false)
    (hB : ∀ e ∈ B, isGateEvent e = false)
    (hR : B ≠ [] → Event.readLine ∈ A) : cleanupGated tr := by
  subst htr
  have hlen : ∀ {i : Nat}, i < (A ++ B).length → i < A.length + B.length := by
    intro i h; simpa using h
  have hge : ∀ i (hi : i < (A ++ B).length),
      isDestructive ((A ++ B).get ⟨i, hi⟩) = true → A.length ≤ i := by
    intro i hi hd
    by_contra hlt
    push_neg at hlt
    have h3 : (A ++ B).get ⟨i, hi⟩ = (A ++ B)[i] := rfl
    rw [h3, List.getElem_append_left hlt] at hd
    have := hA (A[i]) (List.getElem_mem hlt)
    simp [this] at hd
  constructor
  · intro i j hi hj hdi hgj
    have hAi := hge i hi hdi
    have hAj : j < A.length := by
      by_contra hgej
      push_neg at hgej
      have h3 : (A ++ B).get ⟨j, hj⟩ = (A ++ B)[j] := rfl
      rw [h3, List.getElem_append_right hgej] at hgj
      have hjb : j - A.length < B.length := by
        have := hlen hj
        omega
      have := hB (B[j - A.length]) (List.getElem_mem hjb)
      simp [this] at hgj
    omega
  · intro i hi hd
    have hAi := hge i hi hd
    have hBne : B ≠ [] := by
      have hl := hlen hi
      intro hBe
      subst hBe
      simp at hl
      omega
    have hRL := hR hBne
    have hsub : A ⊆ (A ++ B).take i := by
      intro x hx
      have hx2 : x ∈ ((A ++ B).take i).take A.length := by
        rw [List.take_take, Nat.min_eq_left hAi, List.take_left]
        exact hx
      exact List.take_subset _ _ hx2
    exact hsub hRL

/-- C7: in every run of the driver — full or terminated early by
`onErrorFail` — the destructive cleanup steps (container deletion and
local-file removal) never precede any blob-workflow call, the blob
listing, or the operator-input read: every gate event comes strictly
before every destructive event, and the operator-input read has
occurred before any destructive event executes. -/
theorem cleanup_gated (env : DriverEnv) (c p a b : String) :
    cleanupGated (blobSamples env c p a b).1 := by
  have hap := appendPhase_no_destr env a
  have hbp := blockBlobOperations_no_destr env.blockEnv b
  have hpp : ∀ e ∈ (pageBlobOperations env.pageEnv p).1, isDestructive e = false :=
    pageBlob_no_destr env.pageEnv p (512 * 5)
  have hlp := printBlobList_no_destr env.listBlobsErr env.blobNames c
  rcases h1 : env.createContainerErr with _ | e1
  · rcases h2 : (appendPhase env a).2 with _ | e2
    · rcases h3 : (blockBlobOperations env.blockEnv b).2 with _ | e3
      · rcases h4 : (pageBlobOperations env.pageEnv p).2 with _ | e4
        · rcases h5 : env.listBlobsErr with _ | e5
          · rcases h6 : env.deleteContainerErr with _ | e6
            · refine cleanupGated_of_split _
                ([Event.printMsg "Create container with private access type...",
                  Event.createContainer c]
                 ++ (appendPhase env a).1
                 ++ (blockBlobOperations env.blockEnv b).1
                 ++ (pageBlobOperations env.pageEnv p).1
                 ++ (printBlobList env.listBlobsErr env.blobNames c).1
                 ++ [Event.printMsg "Press enter to delete the blobs, container and local files created in this sample...",
                     Event.readLine,
                     Event.printMsg "Delete container..."])
                [Event.deleteContainer c,
                 Event.printMsg "Delete files...",
                 Event.removeFile appendBlobFile,
                 Event.removeFile blockBlobFile,
                 Event.removeFile pageBlobFile,
                 Event.printMsg "Done"]
                ?_ ?_ (by simp) (fun _ => by simp)
              · simp [blobSamples, printBlobList_snd, h1, h2, h3, h4, h5, h6,
                      List.append_assoc]
              · repeat first
                  | exact hap
                  | exact hbp
                  | exact hpp
                  | exact hlp
                  | rfl
                  | exact no_destr_nil
                  | apply no_destr_cons
                  | apply no_destr_append
            · refine cleanupGated_of_split _
                ([Event.printMsg "Create container with private access type...",
                  Event.createContainer c]
                 ++ (appendPhase env a).1
                 ++ (blockBlobOperations env.blockEnv b).1
                 ++ (pageBlobOperations env.pageEnv p).1
                 ++ (printBlobList env.listBlobsErr env.blobNames c).1
                 ++ [Event.printMsg "Press enter to delete the blobs, container and local files created in this sample...",
                     Event.readLine,
                     Event.printMsg "Delete container..."])
                [Event.deleteContainer c,
                 Event.printMsg ("Delete container failed: " ++ e6)]
                ?_ ?_ (by simp) (fun _ => by simp)
              · simp [blobSamples, printBlobList_snd, h1, h2, h3, h4, h5, h6,
                      onErrorFailEvents, List.append_assoc]
              · repeat first
                  | exact hap
                  | exact hbp
                  | exact hpp
                  | exact hlp
                  | rfl
                  | exact no_destr_nil
                  | apply no_destr_cons
                  | apply no_destr_append
          · refine cleanupGated_of_split _ ((blobSamples env c p a b).1) []
              (by simp) ?_ (by simp) (by simp)
            simp only [blobSamples, printBlobList_snd, h1, h2, h3, h4, h5,
                       onErrorFailEvents]
            repeat first
              | exact hap
              | exact hbp
              | exact hpp
              | exact hlp
              | rfl
              | exact no_destr_nil
              | apply no_destr_cons
              | apply no_destr_append
        · refine cleanupGated_of_split _ ((blobSamples env c p a b).1) []
            (by simp) ?_ (by simp) (by simp)
          simp only [blobSamples, printBlobList_snd, h1, h2, h3, h4,
                     onErrorFailEvents]
          repeat first
            | exact hap
            | exact hbp
            | exact hpp
            | rfl
            | exact no_destr_nil
            | apply no_destr_cons
            | apply no_destr_append
      · refine cleanupGated_of_split _ ((blobSamples env c p a b).1) []
          (by simp) ?_ (by simp) (by simp)
        simp only [blobSamples, printBlobList_snd, h1, h2, h3,
                   onErrorFailEvents]
        repeat first
          | exact hap
          | exact hbp
          | rfl
          | exact no_destr_nil
          | apply no_destr_cons
          | apply no_destr_append
    · refine cleanupGated_of_split _ ((blobSamples env c p a b).1) []
        (by simp) ?_ (by simp) (by simp)
      simp only [blobSamples, printBlobList_snd, h1, h2, onErrorFailEvents]
      repeat first
        | exact hap
        | rfl
        | exact no_destr_nil
        | apply no_destr_cons
        | apply no_destr_append
  · rcases hemu : env.emulator with _ | _ <;>
      (refine cleanupGated_of_split _ ((blobSamples env c p a b).1) []
         (by simp) ?_ (by simp) (by simp)
       simp [blobSamples, h1, hemu, onErrorFailEvents])

/-- Witness for C7 at the all-success environment. -/
theorem cleanup_gated_witness :
    cleanupGated (blobSamples baseDriverEnv "c" "p" "a" "b").1 :=
  cleanup_gated baseDriverEnv "c" "p" "a" "b"
